import Mathlib

/-!
Shallow embedding of the proxy-gateway collection pipeline
(`src/proxy-gateway/main.py` and `src/proxy-gateway/models.py`).

The embedded functions mirror the Python source:
* `fetch_uccx_metrics` / `fetch_cucm_metrics` : the Source Clients, taking the
  upstream HTTP interaction's result as an explicit `FetchResponse` value;
* `save_metrics_to_database` together with `Session` and `saveLoop` : the Metric
  Store write path, with the `DatabaseSession` context-manager semantics of
  `models.py` made explicit (enter / body loop / exit with commit-or-rollback);
* `collect_all_metrics` : the orchestrator, with the module-level globals
  (`last_collection_time`, `metrics_collected_count`) and the table contents
  threaded as an explicit `GatewayState`;
* `health_check` : the status endpoint, reading that state;
* `pollingStep` / `pollingRun` : iterated cycles as in `polling_loop`.

Python exceptions are modelled by `PyExc`; a function that can raise returns
`Except PyExc _`.  Fault injection for the store (which records raise on `add`,
whether `commit` raises) is an explicit `StoreCall` argument.  Numeric metric
values are never computed on by this code, only copied, so they are modelled by
`PyVal`, a rational tagged value with explicit non-finite markers.
-/

namespace ProxyGateway

/-- Python float value as it flows through the gateway: the code only copies
values, never does arithmetic on them, so finite values are rationals and the
non-finite floats are explicit markers. -/
inductive PyVal where
  | num (q : ℚ)
  | nan
  | inf
  | ninf
deriving DecidableEq, Repr

/-- True exactly for the finite values (`math.isfinite` semantics). -/
def PyVal.isFinite : PyVal → Bool
  | .num _ => true
  | _ => false

/-- Python exceptions relevant to this code: `requests.RequestException`
(raised by the HTTP layer), `KeyError` (raised by a `d[k]` lookup on a missing
key), and SQLAlchemy errors from the database layer. -/
inductive PyExc where
  | requestException (msg : String)
  | keyError (key : String)
  | sqlAlchemyError (msg : String)
deriving DecidableEq, Repr

/-- Which exceptions the `except requests.RequestException` clause catches. -/
def PyExc.isRequestException : PyExc → Bool
  | .requestException _ => true
  | _ => false

/-- Rendering of `str(e)` as used when formatting error messages.  (Python's
`str` of a `KeyError` quotes the key; the exact text is immaterial to every
property below, only that it is a string.) -/
def PyExc.str : PyExc → String
  | .requestException m => m
  | .keyError k => k
  | .sqlAlchemyError m => m

/-- One entry of the upstream payload's `metrics` mapping: the nested dict
`{"value": ..., "unit": ...}`.  A `none` field models the key being absent, so
that the `metric_info["value"]` / `metric_info["unit"]` lookups can raise
`KeyError`. -/
structure MetricInfo where
  value : Option PyVal
  unit : Option String
deriving DecidableEq, Repr

/-- The decoded JSON body of an upstream stats response.  `server_type` and
`metrics` are `Option`s because the code reads both with `dict.get` and a
default.  The `metrics` mapping is an association list in the dict's
(insertion-order preserving) iteration order. -/
structure Payload where
  server_type : Option String
  metrics : Option (List (String × MetricInfo))
deriving DecidableEq, Repr

/-- Result of the HTTP interaction performed by a fetch function:
`failure msg` covers a connection error, a timeout, or a non-success status
code (`response.raise_for_status`), all of which raise a
`requests.RequestException`; `success` carries the decoded JSON payload. -/
inductive FetchResponse where
  | failure (msg : String)
  | success (payload : Payload)
deriving DecidableEq, Repr

/-- One flattened metric record, exactly the dict built by the fetch loop
(and the column values of the `TelephonyMetric` ORM row it becomes). -/
structure TelephonyMetric where
  server_type : String
  metric_name : String
  metric_value : PyVal
  unit : String
deriving DecidableEq, Repr

/-- The `for metric_name, metric_info in metrics_data.items()` loop shared by
both fetch functions: builds one record per entry, reading
`metric_info["value"]` then `metric_info["unit"]`, either of which raises
`KeyError` when the key is absent, aborting the loop. -/
def flattenMetrics (server_type : String) :
    List (String × MetricInfo) → Except PyExc (List TelephonyMetric)
  | [] => .ok []
  | (metric_name, metric_info) :: rest =>
    match metric_info.value with
    | none => .error (.keyError "value")
    | some v =>
      match metric_info.unit with
      | none => .error (.keyError "unit")
      | some u =>
        (flattenMetrics server_type rest).map
          (fun ms => ⟨server_type, metric_name, v, u⟩ :: ms)

/-- `fetch_uccx_metrics` of `main.py`: on HTTP failure the
`requests.RequestException` propagates; otherwise `server_type` defaults to
`"uccx"`, a missing `metrics` key defaults to the empty dict, and the mapping
is flattened. -/
def fetch_uccx_metrics (resp : FetchResponse) : Except PyExc (List TelephonyMetric) :=
  match resp with
  | .failure msg => .error (.requestException msg)
  | .success data =>
    flattenMetrics (data.server_type.getD "uccx") (data.metrics.getD [])

/-- `fetch_cucm_metrics` of `main.py`: identical to the UCCX client except for
the endpoint and the `"cucm"` default source tag. -/
def fetch_cucm_metrics (resp : FetchResponse) : Except PyExc (List TelephonyMetric) :=
  match resp with
  | .failure msg => .error (.requestException msg)
  | .success data =>
    flattenMetrics (data.server_type.getD "cucm") (data.metrics.getD [])

/-- A SQLAlchemy session as used through `DatabaseSession`: `pending` holds the
rows added since the session opened, `committed` the durable table contents,
`closed` whether `close()` has been called. -/
structure Session where
  pending : List TelephonyMetric
  committed : List TelephonyMetric
  closed : Bool
deriving DecidableEq, Repr

/-- `db.add(metric)`: stages one row in the open transaction. -/
def Session.add (s : Session) (m : TelephonyMetric) : Session :=
  { s with pending := s.pending ++ [m] }

/-- `db.commit()` when it succeeds: every staged row becomes durable at once. -/
def Session.commit (s : Session) : Session :=
  { s with pending := [], committed := s.committed ++ s.pending }

/-- `db.rollback()`: the staged rows are discarded; the table is untouched. -/
def Session.rollback (s : Session) : Session :=
  { s with pending := [] }

/-- `db.close()`: the session's resources are released. -/
def Session.close (s : Session) : Session :=
  { s with closed := true }

/-- Fault injection for one `save_metrics_to_database` call: `fault = some (i, e)`
makes the body of the `with` block (the `TelephonyMetric(...)` construction or
`db.add`) raise `e` at iteration `i`; `commitFault = some e` makes the
`db.commit()` inside `DatabaseSession.__exit__` raise `e`. -/
structure StoreCall where
  fault : Option (ℕ × PyExc)
  commitFault : Option PyExc
deriving DecidableEq, Repr

/-- A store call on which every operation succeeds. -/
def StoreCall.ok : StoreCall := ⟨none, none⟩

/-- The `for metric_data in metrics` body of `save_metrics_to_database`:
constructs a `TelephonyMetric` row, calls `db.add`, and increments `count`,
until the list is exhausted or the injected fault raises.  Returns the session,
the value of `count`, and the exception that escaped the body, if any. -/
def saveLoop : List TelephonyMetric → Option (ℕ × PyExc) → Session → ℕ →
    Session × ℕ × Option PyExc
  | [], _, s, count => (s, count, none)
  | _ :: _, some (0, e), s, count => (s, count, some e)
  | m :: rest, none, s, count => saveLoop rest none (s.add m) (count + 1)
  | m :: rest, some (i + 1, e), s, count =>
      saveLoop rest (some (i, e)) (s.add m) (count + 1)

/-- `save_metrics_to_database` of `main.py`, with the `DatabaseSession`
context-manager semantics of `models.py` inlined: `__enter__` opens a fresh
session over the table `prior`; the body loop stages the rows; `__exit__`
rolls back then closes when the body raised, and otherwise commits then
closes — where a `commit()` that itself raises skips the `close()` call
(the raise happens before the `self.db.close()` line is reached). -/
def save_metrics_to_database (call : StoreCall) (prior : List TelephonyMetric)
    (metrics : List TelephonyMetric) : Except PyExc ℕ × Session :=
  let s0 : Session := ⟨[], prior, false⟩
  match saveLoop metrics call.fault s0 0 with
  | (s1, _, some e) => (.error e, s1.rollback.close)
  | (s1, count, none) =>
    match call.commitFault with
    | some e => (.error e, s1)
    | none => (.ok count, s1.commit.close)

/-- The gateway's module-level mutable state (`last_collection_time`,
`metrics_collected_count`) together with the durable table contents the store
writes into.  Instants are abstract naturals. -/
structure GatewayState where
  last_collection_time : Option ℕ
  metrics_collected_count : ℕ
  db : List TelephonyMetric
deriving DecidableEq, Repr

/-- The dict returned by `collect_all_metrics`. -/
structure CollectionOutcome where
  success : Bool
  uccx_metrics_count : ℕ
  cucm_metrics_count : ℕ
  total_saved : ℕ
  errors : List String
  timestamp : ℕ
deriving DecidableEq, Repr

/-- The `try: fetch...() except requests.RequestException` block of
`collect_all_metrics`: a `RequestException` is turned into one formatted entry
for `errors` with that source's contribution empty; any other exception
propagates past `collect_all_metrics` (the clause does not catch it). -/
def fetchStage (r : Except PyExc (List TelephonyMetric)) (errPrefix : String) :
    Except PyExc (List TelephonyMetric × List String) :=
  match r with
  | .ok ms => .ok (ms, [])
  | .error (.requestException m) => .ok ([], [errPrefix ++ m])
  | .error e => .error e

/-- `collect_all_metrics` of `main.py`: fetch UCCX, fetch CUCM (each guarded
only against `requests.RequestException`), save the concatenated batch when it
is non-empty (guarded against every exception), add `total_saved` to
`metrics_collected_count` on a successful save, stamp `last_collection_time`,
and return the outcome dict.  The result is `.error e` exactly when an
exception escapes the call. -/
def collect_all_metrics (uccxResp cucmResp : FetchResponse) (call : StoreCall)
    (now : ℕ) (st : GatewayState) : Except PyExc (CollectionOutcome × GatewayState) :=
  match fetchStage (fetch_uccx_metrics uccxResp) "Failed to fetch UCCX metrics: " with
  | .error e => .error e
  | .ok (uccx_metrics, errs1) =>
    match fetchStage (fetch_cucm_metrics cucmResp) "Failed to fetch CUCM metrics: " with
    | .error e => .error e
    | .ok (cucm_metrics, errs2) =>
      let all_metrics := uccx_metrics ++ cucm_metrics
      let fetchErrors := errs1 ++ errs2
      let uccx_count := uccx_metrics.length
      let cucm_count := cucm_metrics.length
      let step :=
        if all_metrics.isEmpty then
          (0, fetchErrors, st.metrics_collected_count, st.db)
        else
          match save_metrics_to_database call st.db all_metrics with
          | (.ok n, sess) =>
            (n, fetchErrors, st.metrics_collected_count + n, sess.committed)
          | (.error e, sess) =>
            (0, fetchErrors ++ ["Failed to save metrics to database: " ++ e.str],
             st.metrics_collected_count, sess.committed)
      match step with
      | (total_saved, errors, newCount, newDb) =>
        .ok ({ success := errors.isEmpty,
               uccx_metrics_count := uccx_count,
               cucm_metrics_count := cucm_count,
               total_saved := total_saved,
               errors := errors,
               timestamp := now },
             { last_collection_time := some now,
               metrics_collected_count := newCount,
               db := newDb })

/-- The dict returned by the `/health` endpoint. -/
structure HealthResponse where
  status : String
  timestamp : ℕ
  service : String
  polling_enabled : Bool
  polling_interval_seconds : ℕ
  last_collection : Option ℕ
  total_metrics_collected : ℕ
deriving DecidableEq, Repr

/-- `health_check` of `main.py`: reports the polling configuration, the value
of `last_collection_time` (or `None` before any cycle), and
`metrics_collected_count`. -/
def health_check (enablePolling : Bool) (interval : ℕ) (now : ℕ)
    (st : GatewayState) : HealthResponse :=
  { status := "healthy",
    timestamp := now,
    service := "proxy-gateway",
    polling_enabled := enablePolling,
    polling_interval_seconds := interval,
    last_collection := st.last_collection_time,
    total_metrics_collected := st.metrics_collected_count }

/-- The environment one collection cycle runs against: the two upstream
responses, the store's fault injection, and the current clock reading. -/
structure RunInput where
  uccxResp : FetchResponse
  cucmResp : FetchResponse
  call : StoreCall
  now : ℕ
deriving DecidableEq, Repr

/-- One iteration of `polling_loop`: run `collect_all_metrics`; an exception
escaping it is caught by the loop's `except Exception` clause, which only logs
— the module globals, mutated only after the point such an exception is
raised, are unchanged in that case. -/
def pollingStep (inp : RunInput) (st : GatewayState) : GatewayState :=
  match collect_all_metrics inp.uccxResp inp.cucmResp inp.call inp.now st with
  | .ok (_, st2) => st2
  | .error _ => st

/-- Iterated polling cycles. -/
def pollingRun : List RunInput → GatewayState → GatewayState
  | [], st => st
  | inp :: rest, st => pollingRun rest (pollingStep inp st)

/-! Helper lemmas characterising the store write and the orchestrator. -/

/-- With no injected fault the body loop stages exactly the batch, in order,
and counts it. -/
theorem saveLoop_none_eq (ms : List TelephonyMetric) (s : Session) (c : ℕ) :
    saveLoop ms none s c =
      ({ s with pending := s.pending ++ ms }, c + ms.length, none) := by
  induction ms generalizing s c with
  | nil => simp [saveLoop]
  | cons m rest ih =>
    simp [saveLoop, ih, Session.add, List.append_assoc]
    omega

/-- A fault injected inside the batch makes the body loop raise, leaving the
table untouched. -/
theorem saveLoop_fault_eq (ms : List TelephonyMetric) (i : ℕ) (e : PyExc)
    (s : Session) (c : ℕ) (h : i < ms.length) :
    ∃ s2 c2, saveLoop ms (some (i, e)) s c = (s2, c2, some e) ∧
      s2.committed = s.committed := by
  induction ms generalizing i s c with
  | nil => simp at h
  | cons m rest ih =>
    cases i with
    | zero => exact ⟨s, c, rfl, rfl⟩
    | succ j =>
      obtain ⟨s2, c2, heq, hcom⟩ := ih j (s.add m) (c + 1) (by simpa using h)
      exact ⟨s2, c2, by simpa [saveLoop] using heq, by simpa [Session.add] using hcom⟩

/-- A fault-free store call commits the whole batch at once, returns its
length, and closes the session. -/
theorem save_ok_eq (prior ms : List TelephonyMetric) :
    save_metrics_to_database .ok prior ms =
      (.ok ms.length, ⟨[], prior ++ ms, true⟩) := by
  simp [save_metrics_to_database, StoreCall.ok, saveLoop_none_eq,
    Session.commit, Session.close]

/-- A fault raised by the loop body is rolled back: no partial rows remain and
the session is closed. -/
theorem save_bodyFault_eq (prior ms : List TelephonyMetric) (i : ℕ) (e : PyExc)
    (cf : Option PyExc) (h : i < ms.length) :
    save_metrics_to_database ⟨some (i, e), cf⟩ prior ms =
      (.error e, ⟨[], prior, true⟩) := by
  obtain ⟨s2, c2, heq, hcom⟩ := saveLoop_fault_eq ms i e ⟨[], prior, false⟩ 0 h
  simp [save_metrics_to_database, heq, Session.rollback, Session.close, hcom]

/-- A `commit()` that raises leaves the table untouched but skips `close()`:
the session stays open with the batch still staged. -/
theorem save_commitFault_eq (prior ms : List TelephonyMetric) (e : PyExc) :
    save_metrics_to_database ⟨none, some e⟩ prior ms =
      (.error e, ⟨ms, prior, false⟩) := by
  simp [save_metrics_to_database, saveLoop_none_eq]

/-- Orchestrator run with both fetches succeeding and a fault-free store. -/
theorem collect_ok_ok_eq (ur cr : FetchResponse) (u c : List TelephonyMetric)
    (now : ℕ) (st : GatewayState)
    (hu : fetch_uccx_metrics ur = .ok u) (hc : fetch_cucm_metrics cr = .ok c) :
    collect_all_metrics ur cr .ok now st =
      .ok (⟨true, u.length, c.length, u.length + c.length, [], now⟩,
           ⟨some now, st.metrics_collected_count + (u.length + c.length),
            st.db ++ (u ++ c)⟩) := by
  simp only [collect_all_metrics, hu, hc, fetchStage]
  by_cases hem : u ++ c = []
  · obtain ⟨hu0, hc0⟩ := List.append_eq_nil.mp hem
    subst hu0; subst hc0
    simp
  · simp [hem, List.isEmpty_iff, save_ok_eq]

/-- Orchestrator run with both fetches succeeding and a failing store write. -/
theorem collect_ok_ok_errstore_eq (ur cr : FetchResponse)
    (u c : List TelephonyMetric) (call : StoreCall) (e : PyExc) (sess : Session)
    (now : ℕ) (st : GatewayState)
    (hu : fetch_uccx_metrics ur = .ok u) (hc : fetch_cucm_metrics cr = .ok c)
    (hne : u ++ c ≠ [])
    (hs : save_metrics_to_database call st.db (u ++ c) = (.error e, sess)) :
    collect_all_metrics ur cr call now st =
      .ok (⟨false, u.length, c.length, 0,
            ["Failed to save metrics to database: " ++ e.str], now⟩,
           ⟨some now, st.metrics_collected_count, sess.committed⟩) := by
  simp [collect_all_metrics, hu, hc, fetchStage, hne, List.isEmpty_iff, hs]

/-- Orchestrator run where the UCCX fetch raises a `RequestException`, the
CUCM fetch succeeds, and the store is fault-free. -/
theorem collect_uccx_reqfail_eq (m : String) (cr : FetchResponse)
    (c : List TelephonyMetric) (now : ℕ) (st : GatewayState)
    (hc : fetch_cucm_metrics cr = .ok c) :
    collect_all_metrics (.failure m) cr .ok now st =
      .ok (⟨false, 0, c.length, c.length,
            ["Failed to fetch UCCX metrics: " ++ m], now⟩,
           ⟨some now, st.metrics_collected_count + c.length, st.db ++ c⟩) := by
  simp only [collect_all_metrics, fetch_uccx_metrics, hc, fetchStage]
  by_cases hem : c = []
  · subst hem; simp
  · simp [hem, List.isEmpty_iff, save_ok_eq]

/-- Orchestrator run where the CUCM fetch raises a `RequestException`, the
UCCX fetch succeeds, and the store is fault-free. -/
theorem collect_cucm_reqfail_eq (m : String) (ur : FetchResponse)
    (u : List TelephonyMetric) (now : ℕ) (st : GatewayState)
    (hu : fetch_uccx_metrics ur = .ok u) :
    collect_all_metrics ur (.failure m) .ok now st =
      .ok (⟨false, u.length, 0, u.length,
            ["Failed to fetch CUCM metrics: " ++ m], now⟩,
           ⟨some now, st.metrics_collected_count + u.length, st.db ++ u⟩) := by
  simp only [collect_all_metrics, fetch_cucm_metrics, hu, fetchStage]
  by_cases hem : u = []
  · subst hem; simp
  · simp [hem, List.isEmpty_iff, save_ok_eq]

/-- Every normally-returning run stamps `last_collection_time` with the cycle's
clock reading and adds exactly the outcome's `total_saved` to
`metrics_collected_count`. -/
theorem collect_state_eq (ur cr : FetchResponse) (call : StoreCall) (now : ℕ)
    (st : GatewayState) (out : CollectionOutcome) (st2 : GatewayState)
    (h : collect_all_metrics ur cr call now st = .ok (out, st2)) :
    st2.last_collection_time = some now ∧
      st2.metrics_collected_count = st.metrics_collected_count + out.total_saved := by
  simp only [collect_all_metrics] at h
  split at h
  · exact absurd h (by simp)
  · split at h
    · exact absurd h (by simp)
    · split at h
      · simp only [Except.ok.injEq, Prod.mk.injEq] at h
        obtain ⟨h1, h2⟩ := h
        subst h1; subst h2
        simp
      · split at h
        · simp only [Except.ok.injEq, Prod.mk.injEq] at h
          obtain ⟨h1, h2⟩ := h
          subst h1; subst h2
          simp
        · simp only [Except.ok.injEq, Prod.mk.injEq] at h
          obtain ⟨h1, h2⟩ := h
          subst h1; subst h2
          simp

/-- The per-source `try` block returns normally exactly when the fetch either
succeeded or raised a `requests.RequestException`. -/
theorem fetchStage_ok (r : Except PyExc (List TelephonyMetric)) (p : String)
    (h : ∀ e, r = .error e → e.isRequestException = true) :
    ∃ ms errs, fetchStage r p = .ok (ms, errs) := by
  cases r with
  | ok ms => exact ⟨ms, [], rfl⟩
  | error e =>
    have he := h e rfl
    cases e with
    | requestException m => exact ⟨[], [p ++ m], rfl⟩
    | keyError k => simp [PyExc.isRequestException] at he
    | sqlAlchemyError m => simp [PyExc.isRequestException] at he

/-- Orchestrator run in which both fetches succeed with empty payloads: the
store is never called, so the injected store faults are irrelevant. -/
theorem collect_empty_eq (ur cr : FetchResponse) (call : StoreCall) (now : ℕ)
    (st : GatewayState)
    (hu : fetch_uccx_metrics ur = .ok []) (hc : fetch_cucm_metrics cr = .ok []) :
    collect_all_metrics ur cr call now st =
      .ok (⟨true, 0, 0, 0, [], now⟩,
           ⟨some now, st.metrics_collected_count, st.db⟩) := by
  simp [collect_all_metrics, hu, hc, fetchStage]

/-- One polling iteration never decreases the lifetime counter. -/
theorem pollingStep_count_le (inp : RunInput) (st : GatewayState) :
    st.metrics_collected_count ≤ (pollingStep inp st).metrics_collected_count := by
  rcases h : collect_all_metrics inp.uccxResp inp.cucmResp inp.call inp.now st with e | ⟨out, st2⟩
  · simp [pollingStep, h]
  · obtain ⟨-, h2⟩ := collect_state_eq _ _ _ _ _ _ _ h
    simp [pollingStep, h, h2]

/-- The lifetime counter is monotone over any sequence of polling cycles. -/
theorem pollingRun_count_mono (runs : List RunInput) (st : GatewayState) :
    st.metrics_collected_count ≤ (pollingRun runs st).metrics_collected_count := by
  induction runs generalizing st with
  | nil => simp [pollingRun]
  | cons inp rest ih =>
    exact le_trans (pollingStep_count_le inp st) (by simpa [pollingRun] using ih (pollingStep inp st))

/-! Sample inputs used by the concrete theorems below. -/

/-- An upstream payload whose only metric entry lacks its `value` key. -/
def uccxPayloadMissingValue : Payload := ⟨some "uccx", some [("x", ⟨none, some "count"⟩)]⟩

/-- An upstream payload whose only metric entry lacks its `unit` key. -/
def uccxPayloadMissingUnit : Payload := ⟨some "uccx", some [("y", ⟨some (.num 3), none⟩)]⟩

/-- A well-formed CUCM payload with an empty `metrics` mapping. -/
def cucmEmptyPayload : Payload := ⟨some "cucm", some []⟩

/-- A well-formed CUCM payload with one metric entry. -/
def cucmOnePayload : Payload := ⟨some "cucm", some [("m", ⟨some (.num 4), some "count"⟩)]⟩

/-- The gateway state at process start: no collection yet, zero lifetime
counter, empty table. -/
def initialState : GatewayState := ⟨none, 0, []⟩

/-! Claims. -/

/-- C1 (counterexample): a fetched payload whose per-metric entry is missing
its `value` key makes `collect_all_metrics` itself raise `KeyError`; the call
does not return an outcome. -/
theorem collect_raises_on_malformed_entry :
    collect_all_metrics (.success uccxPayloadMissingValue) (.success cucmEmptyPayload)
        .ok 0 initialState = .error (.keyError "value") ∧
    (collect_all_metrics (.success uccxPayloadMissingValue) (.success cucmEmptyPayload)
        .ok 0 initialState).isOk = false :=
  ⟨rfl, rfl⟩

/-- C1 (amended): as long as any exception the two fetches raise is a
`requests.RequestException` — the only kind their `except` clauses catch —
no exception propagates out of `collect_all_metrics`, whatever the store
does: the call returns a normal outcome. -/
theorem collect_no_escape_of_request_errors (ur cr : FetchResponse)
    (call : StoreCall) (now : ℕ) (st : GatewayState)
    (hu : ∀ e, fetch_uccx_metrics ur = .error e → e.isRequestException = true)
    (hc : ∀ e, fetch_cucm_metrics cr = .error e → e.isRequestException = true) :
    (collect_all_metrics ur cr call now st).isOk = true := by
  obtain ⟨u, errs1, h1⟩ := fetchStage_ok _ "Failed to fetch UCCX metrics: " hu
  obtain ⟨c, errs2, h2⟩ := fetchStage_ok _ "Failed to fetch CUCM metrics: " hc
  simp only [collect_all_metrics, h1, h2]
  by_cases hem : (u ++ c).isEmpty
  · simp [hem, Except.isOk, Except.toBool]
  · rcases hsv : save_metrics_to_database call st.db (u ++ c) with ⟨r, sess⟩
    cases r with
    | ok n => simp [hem, hsv, Except.isOk, Except.toBool]
    | error e => simp [hem, hsv, Except.isOk, Except.toBool]

/-- C1 (witness): a run with one network failure and one empty success returns
normally. -/
theorem collect_no_escape_of_request_errors_witness :
    (collect_all_metrics (.failure "down") (.success cucmEmptyPayload) .ok 0
      initialState).isOk = true :=
  collect_no_escape_of_request_errors (.failure "down") (.success cucmEmptyPayload)
    .ok 0 initialState
    (fun e h => by injection h with h2; rw [← h2]; rfl)
    (fun e h => by exact Except.noConfusion h)

/-- C2: when both fetches succeed and the store call is fault-free, the
outcome has `success = true`, an empty `errors` list, and
`total_saved = uccx_metrics_count + cucm_metrics_count`; the batch is
committed and the lifetime counter advances by the same sum. -/
theorem collect_all_success_outcome (ur cr : FetchResponse)
    (u c : List TelephonyMetric) (now : ℕ) (st : GatewayState)
    (hu : fetch_uccx_metrics ur = .ok u) (hc : fetch_cucm_metrics cr = .ok c) :
    collect_all_metrics ur cr .ok now st =
      .ok ({ success := true, uccx_metrics_count := u.length,
             cucm_metrics_count := c.length, total_saved := u.length + c.length,
             errors := [], timestamp := now },
           ⟨some now, st.metrics_collected_count + (u.length + c.length),
            st.db ++ (u ++ c)⟩) :=
  collect_ok_ok_eq ur cr u c now st hu hc

/-- C2 (witness): a concrete fully-successful run. -/
theorem collect_all_success_outcome_witness :
    collect_all_metrics (.success cucmOnePayload) (.success cucmEmptyPayload) .ok 3
        initialState =
      .ok ({ success := true, uccx_metrics_count := 1, cucm_metrics_count := 0,
             total_saved := 1 + 0, errors := [], timestamp := 3 },
           ⟨some 3, initialState.metrics_collected_count + (1 + 0),
            initialState.db ++ ([⟨"cucm", "m", .num 4, "count"⟩] ++ [])⟩) :=
  collect_all_success_outcome (.success cucmOnePayload) (.success cucmEmptyPayload)
    [⟨"cucm", "m", .num 4, "count"⟩] [] 3 initialState rfl rfl

/-- C3: when both fetches succeed on a non-empty batch and the store write
raises, the outcome has `total_saved = 0`, exactly one error entry,
`success = false`, and per-source counts still reflecting what was fetched;
the lifetime counter does not advance. -/
theorem collect_store_failure_outcome (ur cr : FetchResponse)
    (u c : List TelephonyMetric) (call : StoreCall) (e : PyExc) (now : ℕ)
    (st : GatewayState)
    (hu : fetch_uccx_metrics ur = .ok u) (hc : fetch_cucm_metrics cr = .ok c)
    (hne : u ++ c ≠ [])
    (hs : (save_metrics_to_database call st.db (u ++ c)).1 = .error e) :
    collect_all_metrics ur cr call now st =
      .ok ({ success := false, uccx_metrics_count := u.length,
             cucm_metrics_count := c.length, total_saved := 0,
             errors := ["Failed to save metrics to database: " ++ e.str],
             timestamp := now },
           ⟨some now, st.metrics_collected_count,
            (save_metrics_to_database call st.db (u ++ c)).2.committed⟩) :=
  collect_ok_ok_errstore_eq ur cr u c call e
    (save_metrics_to_database call st.db (u ++ c)).2 now st hu hc hne
    (Prod.ext hs rfl)

/-- C3 (witness): a concrete run whose `commit()` raises. -/
theorem collect_store_failure_outcome_witness :
    collect_all_metrics (.success cucmOnePayload) (.success cucmEmptyPayload)
        ⟨none, some (.sqlAlchemyError "connection lost")⟩ 4 initialState =
      .ok ({ success := false, uccx_metrics_count := 1, cucm_metrics_count := 0,
             total_saved := 0,
             errors := ["Failed to save metrics to database: " ++
               (PyExc.sqlAlchemyError "connection lost").str],
             timestamp := 4 },
           ⟨some 4, initialState.metrics_collected_count,
            (save_metrics_to_database ⟨none, some (.sqlAlchemyError "connection lost")⟩
              initialState.db ([⟨"cucm", "m", .num 4, "count"⟩] ++ [])).2.committed⟩) :=
  collect_store_failure_outcome (.success cucmOnePayload) (.success cucmEmptyPayload)
    [⟨"cucm", "m", .num 4, "count"⟩] [] ⟨none, some (.sqlAlchemyError "connection lost")⟩
    (.sqlAlchemyError "connection lost") 4 initialState rfl rfl (by decide) rfl

/-- C4 (counterexample): with exactly one source failing — the UCCX fetch
raises (here a `KeyError` from an entry missing its `unit` key) while the CUCM
fetch succeeds and the store would accept the batch — `collect_all_metrics`
returns no outcome at all: the exception propagates, so no outcome with the
claimed counts and error entry exists. -/
theorem collect_one_fetch_failure_cx :
    collect_all_metrics (.success uccxPayloadMissingUnit) (.success cucmOnePayload)
        .ok 1 initialState = .error (.keyError "unit") ∧
    (collect_all_metrics (.success uccxPayloadMissingUnit) (.success cucmOnePayload)
        .ok 1 initialState).isOk = false :=
  ⟨rfl, rfl⟩

/-- C4 (amended): when the single failing fetch raises a
`requests.RequestException` (the kind the orchestrator catches) and the other
fetch succeeds and the store is fault-free, the failed source's count is 0,
`errors` has exactly the one entry naming that source, the surviving source's
records are saved (`total_saved` equals its count), and `success = false`. -/
theorem collect_one_reqfail_outcome :
    (∀ (m : String) (cr : FetchResponse) (c : List TelephonyMetric) (now : ℕ)
        (st : GatewayState), fetch_cucm_metrics cr = .ok c →
      collect_all_metrics (.failure m) cr .ok now st =
        .ok ({ success := false, uccx_metrics_count := 0,
               cucm_metrics_count := c.length, total_saved := c.length,
               errors := ["Failed to fetch UCCX metrics: " ++ m],
               timestamp := now },
             ⟨some now, st.metrics_collected_count + c.length, st.db ++ c⟩)) ∧
    (∀ (m : String) (ur : FetchResponse) (u : List TelephonyMetric) (now : ℕ)
        (st : GatewayState), fetch_uccx_metrics ur = .ok u →
      collect_all_metrics ur (.failure m) .ok now st =
        .ok ({ success := false, uccx_metrics_count := u.length,
               cucm_metrics_count := 0, total_saved := u.length,
               errors := ["Failed to fetch CUCM metrics: " ++ m],
               timestamp := now },
             ⟨some now, st.metrics_collected_count + u.length, st.db ++ u⟩)) :=
  ⟨fun m cr c now st hc => collect_uccx_reqfail_eq m cr c now st hc,
   fun m ur u now st hu => collect_cucm_reqfail_eq m ur u now st hu⟩

/-- C4 (witness): a concrete run where only the UCCX fetch fails, with a
network error. -/
theorem collect_one_reqfail_outcome_witness :
    collect_all_metrics (.failure "conn reset") (.success cucmOnePayload) .ok 4
        initialState =
      .ok ({ success := false, uccx_metrics_count := 0, cucm_metrics_count := 1,
             total_saved := 1,
             errors := ["Failed to fetch UCCX metrics: " ++ "conn reset"],
             timestamp := 4 },
           ⟨some 4, initialState.metrics_collected_count + 1,
            initialState.db ++ [⟨"cucm", "m", .num 4, "count"⟩]⟩) :=
  collect_one_reqfail_outcome.1 "conn reset" (.success cucmOnePayload)
    [⟨"cucm", "m", .num 4, "count"⟩] 4 initialState rfl

/-- C5 (counterexample): when the batch write's `commit()` itself raises,
`DatabaseSession.__exit__` propagates the exception before reaching its
`close()` call, so the session is not closed — refuting the claim that the
session is released in both the success and the failure case. -/
theorem save_commit_raise_skips_close :
    (save_metrics_to_database ⟨none, some (.sqlAlchemyError "commit failed")⟩ []
      [⟨"uccx", "active_agents", .num 5, "count"⟩]).2.closed = false ∧
    (save_metrics_to_database ⟨none, some (.sqlAlchemyError "commit failed")⟩ []
      [⟨"uccx", "active_agents", .num 5, "count"⟩]).1 =
      .error (.sqlAlchemyError "commit failed") :=
  ⟨rfl, rfl⟩

/-- C5 (amended): the batch write is atomic — a fault-free call commits the
whole batch in order and returns its length with the session closed; an
exception raised while staging the batch rolls everything back (no partial
rows) with the session closed; an exception raised by `commit()` itself also
leaves no partial rows, but then the session is left open. -/
theorem save_batch_atomic :
    (∀ prior ms, save_metrics_to_database .ok prior ms =
      (.ok ms.length, ⟨[], prior ++ ms, true⟩)) ∧
    (∀ prior ms i e cf, i < ms.length →
      save_metrics_to_database ⟨some (i, e), cf⟩ prior ms =
        (.error e, ⟨[], prior, true⟩)) ∧
    (∀ prior ms e, save_metrics_to_database ⟨none, some e⟩ prior ms =
      (.error e, ⟨ms, prior, false⟩)) :=
  ⟨save_ok_eq, save_bodyFault_eq, save_commitFault_eq⟩

/-- C5 (witness): a concrete rolled-back call and a concrete committed call. -/
theorem save_batch_atomic_witness :
    save_metrics_to_database ⟨some (0, .sqlAlchemyError "constraint"), none⟩
        [⟨"u", "p", .num 2, "c"⟩] [⟨"uccx", "m", .num 1, "count"⟩] =
      (.error (.sqlAlchemyError "constraint"), ⟨[], [⟨"u", "p", .num 2, "c"⟩], true⟩) ∧
    save_metrics_to_database .ok [] [⟨"uccx", "m", .num 1, "count"⟩] =
      (.ok [(⟨"uccx", "m", .num 1, "count"⟩ : TelephonyMetric)].length,
       ⟨[], [] ++ [⟨"uccx", "m", .num 1, "count"⟩], true⟩) :=
  ⟨save_batch_atomic.2.1 [⟨"u", "p", .num 2, "c"⟩] [⟨"uccx", "m", .num 1, "count"⟩]
      0 (.sqlAlchemyError "constraint") none (by decide),
   save_batch_atomic.1 [] [⟨"uccx", "m", .num 1, "count"⟩]⟩

/-- C6 (counterexample): a fetched record carrying a NaN value is not dropped
anywhere on the path to the store: the cycle saves it and the non-finite value
ends up persisted in the table. -/
theorem nan_value_persisted :
    collect_all_metrics (.success ⟨some "uccx", some [("mm", ⟨some .nan, some "count"⟩)]⟩)
        (.success cucmEmptyPayload) .ok 2 initialState =
      .ok ({ success := true, uccx_metrics_count := 1, cucm_metrics_count := 0,
             total_saved := 1, errors := [], timestamp := 2 },
           ⟨some 2, 1, [⟨"uccx", "mm", .nan, "count"⟩]⟩) ∧
    PyVal.isFinite .nan = false :=
  ⟨rfl, rfl⟩

/-- C6 (amended): no validation exists on the write path — every record the
fetches produce, finite-valued or not, reaches the store unchanged and is
persisted when the batch is accepted; no record is ever dropped. -/
theorem collect_persists_all_records (ur cr : FetchResponse)
    (u c : List TelephonyMetric) (now : ℕ) (st : GatewayState)
    (r : TelephonyMetric)
    (hu : fetch_uccx_metrics ur = .ok u) (hc : fetch_cucm_metrics cr = .ok c)
    (hr : r ∈ u ++ c) :
    (pollingStep ⟨ur, cr, .ok, now⟩ st).db = st.db ++ (u ++ c) ∧
    r ∈ (pollingStep ⟨ur, cr, .ok, now⟩ st).db := by
  have hdb : (pollingStep ⟨ur, cr, .ok, now⟩ st).db = st.db ++ (u ++ c) := by
    simp [pollingStep, collect_ok_ok_eq ur cr u c now st hu hc]
  exact ⟨hdb, hdb ▸ List.mem_append_right _ hr⟩

/-- C6 (witness): a cycle fetching one Infinity-valued record persists it. -/
theorem collect_persists_all_records_witness :
    (pollingStep ⟨.success ⟨some "uccx", some [("cpu", ⟨some .inf, some "percent"⟩)]⟩,
        .success cucmEmptyPayload, .ok, 6⟩ initialState).db =
      initialState.db ++ ([⟨"uccx", "cpu", .inf, "percent"⟩] ++ []) ∧
    (⟨"uccx", "cpu", .inf, "percent"⟩ : TelephonyMetric) ∈
      (pollingStep ⟨.success ⟨some "uccx", some [("cpu", ⟨some .inf, some "percent"⟩)]⟩,
        .success cucmEmptyPayload, .ok, 6⟩ initialState).db :=
  collect_persists_all_records
    (.success ⟨some "uccx", some [("cpu", ⟨some .inf, some "percent"⟩)]⟩)
    (.success cucmEmptyPayload) [⟨"uccx", "cpu", .inf, "percent"⟩] [] 6 initialState
    ⟨"uccx", "cpu", .inf, "percent"⟩ rfl rfl (by simp)

/-- C7 (counterexample): an upstream response whose `metrics` field is missing
makes the fetch silently succeed with an empty record list instead of failing
with the `RequestException` kind. -/
theorem fetch_missing_metrics_silent :
    fetch_uccx_metrics (.success ⟨some "uccx", none⟩) = .ok [] ∧
    (fetch_uccx_metrics (.success ⟨some "uccx", none⟩)).isOk = true :=
  ⟨rfl, rfl⟩

/-- C7 (amended): the failure conditions do not collapse to one kind — a
missing `metrics` field silently yields an empty record list from either
client; a malformed per-metric entry raises a `KeyError`; only network
failure, bad status, or timeout raise the `RequestException` the orchestrator
treats as a fetch failure, and a `KeyError` is not of that kind. -/
theorem fetch_failure_modes :
    (∀ t, fetch_uccx_metrics (.success ⟨t, none⟩) = .ok []) ∧
    (∀ t, fetch_cucm_metrics (.success ⟨t, none⟩) = .ok []) ∧
    (∀ t n u rest, fetch_uccx_metrics (.success ⟨t, some ((n, ⟨none, u⟩) :: rest)⟩) =
      .error (.keyError "value")) ∧
    (∀ m, fetch_uccx_metrics (.failure m) = .error (.requestException m)) ∧
    (PyExc.keyError "value").isRequestException = false :=
  ⟨fun _ => rfl, fun _ => rfl, fun _ _ _ _ => rfl, fun _ => rfl, rfl⟩

/-- C7 (witness): a concrete missing-metrics silent success and a concrete
network failure. -/
theorem fetch_failure_modes_witness :
    fetch_uccx_metrics (.success ⟨some "tag", none⟩) = .ok [] ∧
    fetch_uccx_metrics (.failure "refused") = .error (.requestException "refused") :=
  ⟨fetch_failure_modes.1 (some "tag"), fetch_failure_modes.2.2.2.1 "refused"⟩

/-- C8: the flattening law — the sample payload yields exactly its two records
with source tag, names, values and units copied through in mapping order; and
in the assembled batch every UCCX record precedes every CUCM record, as
witnessed by the stored table growing by `u ++ c`. -/
theorem flattening_law :
    fetch_uccx_metrics (.success ⟨some "uccx",
        some [("a", ⟨some (.num 1), some "count"⟩),
              ("b", ⟨some (.num (5/2)), some "percent"⟩)]⟩) =
      .ok [⟨"uccx", "a", .num 1, "count"⟩, ⟨"uccx", "b", .num (5/2), "percent"⟩] ∧
    ∀ (ur cr : FetchResponse) (u c : List TelephonyMetric) (now : ℕ)
      (st : GatewayState), fetch_uccx_metrics ur = .ok u →
      fetch_cucm_metrics cr = .ok c →
      (pollingStep ⟨ur, cr, .ok, now⟩ st).db = st.db ++ (u ++ c) := by
  refine ⟨rfl, fun ur cr u c now st hu hc => ?_⟩
  simp [pollingStep, collect_ok_ok_eq ur cr u c now st hu hc]

/-- C8 (witness): the sample payload's records, followed by one CUCM record,
stored in that order. -/
theorem flattening_law_witness :
    (pollingStep ⟨.success ⟨some "uccx",
        some [("a", ⟨some (.num 1), some "count"⟩),
              ("b", ⟨some (.num (5/2)), some "percent"⟩)]⟩,
        .success cucmOnePayload, .ok, 0⟩ initialState).db =
      initialState.db ++
        ([⟨"uccx", "a", .num 1, "count"⟩, ⟨"uccx", "b", .num (5/2), "percent"⟩] ++
         [⟨"cucm", "m", .num 4, "count"⟩]) :=
  flattening_law.2 (.success ⟨some "uccx",
      some [("a", ⟨some (.num 1), some "count"⟩),
            ("b", ⟨some (.num (5/2)), some "percent"⟩)]⟩)
    (.success cucmOnePayload)
    [⟨"uccx", "a", .num 1, "count"⟩, ⟨"uccx", "b", .num (5/2), "percent"⟩]
    [⟨"cucm", "m", .num 4, "count"⟩] 0 initialState rfl rfl

/-- C9 (counterexample): a cycle that ends with errors (both fetches fail,
`success = false`) still overwrites `last_collection_time`, and the health
endpoint then reports that failed cycle's timestamp — refuting the claim that
the reported timestamp is updated only by successful cycles. -/
theorem failed_cycle_updates_last_collection :
    collect_all_metrics (.failure "net down") (.failure "dns fail") .ok 5
        initialState =
      .ok ({ success := false, uccx_metrics_count := 0, cucm_metrics_count := 0,
             total_saved := 0,
             errors := ["Failed to fetch UCCX metrics: " ++ "net down",
                        "Failed to fetch CUCM metrics: " ++ "dns fail"],
             timestamp := 5 },
           ⟨some 5, 0, []⟩) ∧
    (health_check true 60 9 ⟨some 5, 0, []⟩).last_collection = some 5 ∧
    initialState.last_collection_time = none :=
  ⟨rfl, rfl, rfl⟩

/-- C9 (amended): the health endpoint reports the scheduler configuration, the
lifetime saved count, and the timestamp of the last collection cycle — which
every normally-returning cycle updates, successful or not. -/
theorem health_reports_every_cycle (ur cr : FetchResponse) (call : StoreCall)
    (p : Bool) (iv n now : ℕ) (st : GatewayState) (out : CollectionOutcome)
    (st2 : GatewayState)
    (h : collect_all_metrics ur cr call now st = .ok (out, st2)) :
    st2.last_collection_time = some now ∧
    (health_check p iv n st2).last_collection = some now ∧
    (health_check p iv n st2).total_metrics_collected = st2.metrics_collected_count ∧
    (health_check p iv n st2).polling_enabled = p ∧
    (health_check p iv n st2).polling_interval_seconds = iv := by
  obtain ⟨h1, -⟩ := collect_state_eq ur cr call now st out st2 h
  exact ⟨h1, by simp [health_check, h1], rfl, rfl, rfl⟩

/-- C9 (witness): after a concrete all-failed cycle at time 8 the health
endpoint reports timestamp 8. -/
theorem health_reports_every_cycle_witness :
    (⟨some 8, 0, []⟩ : GatewayState).last_collection_time = some 8 ∧
    (health_check true 60 9 ⟨some 8, 0, []⟩).last_collection = some 8 ∧
    (health_check true 60 9 ⟨some 8, 0, []⟩).total_metrics_collected =
      (⟨some 8, 0, []⟩ : GatewayState).metrics_collected_count ∧
    (health_check true 60 9 ⟨some 8, 0, []⟩).polling_enabled = true ∧
    (health_check true 60 9 ⟨some 8, 0, []⟩).polling_interval_seconds = 60 :=
  health_reports_every_cycle (.failure "a") (.failure "b") .ok true 60 9 8
    initialState
    ({ success := false, uccx_metrics_count := 0, cucm_metrics_count := 0,
       total_saved := 0,
       errors := ["Failed to fetch UCCX metrics: " ++ "a",
                  "Failed to fetch CUCM metrics: " ++ "b"],
       timestamp := 8 })
    ⟨some 8, 0, []⟩ rfl

/-- C10: the lifetime counter `metrics_collected_count` is monotonically
non-decreasing across any sequence of cycles; each normally-returning run adds
exactly its outcome's `total_saved`; and it is unchanged when the store write
fails or when the batch is empty. -/
theorem metrics_count_monotone :
    (∀ runs st,
      st.metrics_collected_count ≤ (pollingRun runs st).metrics_collected_count) ∧
    (∀ ur cr call now st out st2,
      collect_all_metrics ur cr call now st = .ok (out, st2) →
      st2.metrics_collected_count = st.metrics_collected_count + out.total_saved) ∧
    (∀ ur cr u c call e now st out st2,
      fetch_uccx_metrics ur = .ok u → fetch_cucm_metrics cr = .ok c →
      (save_metrics_to_database call st.db (u ++ c)).1 = .error e →
      collect_all_metrics ur cr call now st = .ok (out, st2) →
      st2.metrics_collected_count = st.metrics_collected_count) ∧
    (∀ ur cr call now st out st2,
      fetch_uccx_metrics ur = .ok [] → fetch_cucm_metrics cr = .ok [] →
      collect_all_metrics ur cr call now st = .ok (out, st2) →
      st2.metrics_collected_count = st.metrics_collected_count) := by
  refine ⟨pollingRun_count_mono, ?_, ?_, ?_⟩
  · intro ur cr call now st out st2 h
    exact (collect_state_eq ur cr call now st out st2 h).2
  · intro ur cr u c call e now st out st2 hu hc hs h
    by_cases hne : u ++ c = []
    · obtain ⟨hu0, hc0⟩ := List.append_eq_nil.mp hne
      subst hu0; subst hc0
      rw [collect_empty_eq ur cr call now st hu hc] at h
      simp only [Except.ok.injEq, Prod.mk.injEq] at h
      rw [← h.2]
    · have heq := collect_ok_ok_errstore_eq ur cr u c call e
        (save_metrics_to_database call st.db (u ++ c)).2 now st hu hc hne
        (Prod.ext hs rfl)
      rw [heq] at h
      simp only [Except.ok.injEq, Prod.mk.injEq] at h
      rw [← h.2]
  · intro ur cr call now st out st2 hu hc h
    rw [collect_empty_eq ur cr call now st hu hc] at h
    simp only [Except.ok.injEq, Prod.mk.injEq] at h
    rw [← h.2]

/-- C10 (witness): concrete instances — monotonicity over a one-cycle
sequence, the exact increment of a successful run, and the unchanged counter
of a run whose `commit()` fails and of an empty-batch run. -/
theorem metrics_count_monotone_witness :
    initialState.metrics_collected_count ≤
      (pollingRun [⟨.failure "x", .success cucmOnePayload, .ok, 2⟩]
        initialState).metrics_collected_count ∧
    (⟨some 2, 1, [⟨"cucm", "m", .num 4, "count"⟩]⟩ : GatewayState).metrics_collected_count =
      initialState.metrics_collected_count +
        ({ success := false, uccx_metrics_count := 0, cucm_metrics_count := 1,
           total_saved := 1,
           errors := ["Failed to fetch UCCX metrics: " ++ "x"],
           timestamp := 2 } : CollectionOutcome).total_saved ∧
    (⟨some 3, 0, []⟩ : GatewayState).metrics_collected_count =
      initialState.metrics_collected_count ∧
    (⟨some 7, 0, []⟩ : GatewayState).metrics_collected_count =
      initialState.metrics_collected_count :=
  ⟨metrics_count_monotone.1 [⟨.failure "x", .success cucmOnePayload, .ok, 2⟩]
      initialState,
   metrics_count_monotone.2.1 (.failure "x") (.success cucmOnePayload) .ok 2
      initialState _ _ rfl,
   metrics_count_monotone.2.2.1 (.success cucmOnePayload) (.success cucmEmptyPayload)
      [⟨"cucm", "m", .num 4, "count"⟩] []
      ⟨none, some (.sqlAlchemyError "boom")⟩ (.sqlAlchemyError "boom") 3
      initialState _ _ rfl rfl rfl rfl,
   metrics_count_monotone.2.2.2 (.success cucmEmptyPayload) (.success cucmEmptyPayload)
      .ok 7 initialState _ _ rfl rfl rfl⟩

end ProxyGateway
